import Mathlib

/-!
Verification of the deepwiki-open provider gateway and wiki cache subsystems.

The definitions below are shallow embeddings of the Python sources:
`api/api.py` (wiki cache helpers and endpoints), `api/deepseek_client.py`,
`api/zhipuai_client.py`, `api/chinese_models_client.py` (provider adapters
and stream decoding) and `api/mock_embedder.py` (deterministic mock
embedder).  File contents are modelled as JSON trees; the filesystem is a
partial map from paths to file contents; environment variables are a
partial map from names to strings.
-/

/-- JSON values, the shape `json.dump`/`json.load` round-trips.  The cache
records serialise to strings, arrays, objects and `null` only; numbers and
booleans are included for completeness. -/
inductive Json where
  | null
  | bool (b : Bool)
  | num (n : Int)
  | str (s : String)
  | arr (elems : List Json)
  | obj (fields : List (String × Json))

/-- Validate every element of a list, failing if any element fails
(`Option`-valued `mapM`, structurally recursive). -/
def mapMOpt {α β : Type} (f : α → Option β) : List α → Option (List β)
  | [] => some []
  | x :: xs => do
    let y ← f x
    let ys ← mapMOpt f xs
    pure (y :: ys)

/-- Field lookup in a JSON object (mirrors `dict` access after `json.load`). -/
def Json.getField : Json → String → Option Json
  | .obj fields, k => fields.lookup k
  | _, _ => none

/-- Pydantic validation of a required `str` field. -/
def Json.asStr : Json → Option String
  | .str s => some s
  | _ => none

/-- Pydantic validation of an `Optional[str]` field (`null` becomes `None`). -/
def Json.asOptStr : Json → Option (Option String)
  | .null => some none
  | .str s => some (some s)
  | _ => none

/-- Pydantic validation of a `List[str]` field. -/
def Json.asStrList : Json → Option (List String)
  | .arr xs => mapMOpt Json.asStr xs
  | _ => none

/-- Pydantic validation of an `Optional[List[str]]` field. -/
def Json.asOptStrList : Json → Option (Option (List String))
  | .null => some none
  | .arr xs => (mapMOpt Json.asStr xs).map some
  | _ => none

/-- `model_dump` of an `Optional[str]` field. -/
def dumpOptStr : Option String → Json
  | none => .null
  | some s => .str s

/-- `model_dump` of a `List[str]` field. -/
def dumpStrList (xs : List String) : Json := .arr (xs.map .str)

/-- `model_dump` of an `Optional[List[str]]` field. -/
def dumpOptStrList : Option (List String) → Json
  | none => .null
  | some xs => dumpStrList xs

/-- `WikiPage` pydantic model (api/api.py). -/
structure WikiPage where
  id : String
  title : String
  content : String
  filePaths : List String
  importance : String
  relatedPages : List String
deriving DecidableEq

/-- `WikiSection` pydantic model (api/api.py). -/
structure WikiSection where
  id : String
  title : String
  pages : List String
  subsections : Option (List String)
deriving DecidableEq

/-- `WikiStructureModel` pydantic model (api/api.py). -/
structure WikiStructureModel where
  id : String
  title : String
  description : String
  pages : List WikiPage
  sections : Option (List WikiSection)
  rootSections : Option (List String)
deriving DecidableEq

/-- `RepoInfo` pydantic model (api/api.py). -/
structure RepoInfo where
  owner : String
  repo : String
  type : String
  token : Option String
  localPath : Option String
  repoUrl : Option String
deriving DecidableEq

/-- `WikiCacheData` pydantic model (api/api.py): the persisted cache record.
`generated_pages : Dict[str, WikiPage]` is modelled as an ordered
association list, matching Python `dict` insertion order. -/
structure WikiCacheData where
  wiki_structure : WikiStructureModel
  generated_pages : List (String × WikiPage)
  repo_url : Option String
  repo : Option RepoInfo
  provider : Option String
  model : Option String
deriving DecidableEq

/-- `WikiCacheRequest` pydantic model (api/api.py): the body of
`POST /api/wiki_cache`. -/
structure WikiCacheRequest where
  repo : RepoInfo
  language : String
  wiki_structure : WikiStructureModel
  generated_pages : List (String × WikiPage)
  provider : String
  model : String
deriving DecidableEq

/-- `ProcessedProjectEntry` pydantic model (api/api.py). -/
structure ProcessedProjectEntry where
  id : String
  owner : String
  repo : String
  name : String
  repo_type : String
  submittedAt : Nat
  language : String
deriving DecidableEq

/-- `model_dump` of a `WikiPage`. -/
def WikiPage.dump (p : WikiPage) : Json :=
  .obj [("id", .str p.id), ("title", .str p.title), ("content", .str p.content),
        ("filePaths", dumpStrList p.filePaths), ("importance", .str p.importance),
        ("relatedPages", dumpStrList p.relatedPages)]

/-- `WikiPage(**data)` validation. -/
def WikiPage.load (j : Json) : Option WikiPage := do
  let id ← (j.getField ("id")).bind Json.asStr
  let title ← (j.getField ("title")).bind Json.asStr
  let content ← (j.getField ("content")).bind Json.asStr
  let filePaths ← (j.getField ("filePaths")).bind Json.asStrList
  let importance ← (j.getField ("importance")).bind Json.asStr
  let relatedPages ← (j.getField ("relatedPages")).bind Json.asStrList
  pure ⟨id, title, content, filePaths, importance, relatedPages⟩

/-- `model_dump` of a `WikiSection`. -/
def WikiSection.dump (s : WikiSection) : Json :=
  .obj [("id", .str s.id), ("title", .str s.title), ("pages", dumpStrList s.pages),
        ("subsections", dumpOptStrList s.subsections)]

/-- `WikiSection(**data)` validation. -/
def WikiSection.load (j : Json) : Option WikiSection := do
  let id ← (j.getField ("id")).bind Json.asStr
  let title ← (j.getField ("title")).bind Json.asStr
  let pages ← (j.getField ("pages")).bind Json.asStrList
  let subsections ← (j.getField ("subsections")).bind Json.asOptStrList
  pure ⟨id, title, pages, subsections⟩

/-- `model_dump` of a `WikiStructureModel`. -/
def WikiStructureModel.dump (w : WikiStructureModel) : Json :=
  .obj [("id", .str w.id), ("title", .str w.title), ("description", .str w.description),
        ("pages", .arr (w.pages.map WikiPage.dump)),
        ("sections", match w.sections with
          | none => .null
          | some ss => .arr (ss.map WikiSection.dump)),
        ("rootSections", dumpOptStrList w.rootSections)]

/-- Validation of an optional list of sections. -/
def Json.asOptSectionList : Json → Option (Option (List WikiSection))
  | .null => some none
  | .arr xs => (mapMOpt WikiSection.load xs).map some
  | _ => none

/-- Validation of a list of pages. -/
def Json.asPageList : Json → Option (List WikiPage)
  | .arr xs => mapMOpt WikiPage.load xs
  | _ => none

/-- `WikiStructureModel(**data)` validation. -/
def WikiStructureModel.load (j : Json) : Option WikiStructureModel := do
  let id ← (j.getField ("id")).bind Json.asStr
  let title ← (j.getField ("title")).bind Json.asStr
  let description ← (j.getField ("description")).bind Json.asStr
  let pages ← (j.getField ("pages")).bind Json.asPageList
  let sections ← (j.getField ("sections")).bind Json.asOptSectionList
  let rootSections ← (j.getField ("rootSections")).bind Json.asOptStrList
  pure ⟨id, title, description, pages, sections, rootSections⟩

/-- `model_dump` of a `RepoInfo`. -/
def RepoInfo.dump (r : RepoInfo) : Json :=
  .obj [("owner", .str r.owner), ("repo", .str r.repo), ("type", .str r.type),
        ("token", dumpOptStr r.token), ("localPath", dumpOptStr r.localPath),
        ("repoUrl", dumpOptStr r.repoUrl)]

/-- `RepoInfo(**data)` validation. -/
def RepoInfo.load (j : Json) : Option RepoInfo := do
  let owner ← (j.getField ("owner")).bind Json.asStr
  let repo ← (j.getField ("repo")).bind Json.asStr
  let type ← (j.getField ("type")).bind Json.asStr
  let token ← (j.getField ("token")).bind Json.asOptStr
  let localPath ← (j.getField ("localPath")).bind Json.asOptStr
  let repoUrl ← (j.getField ("repoUrl")).bind Json.asOptStr
  pure ⟨owner, repo, type, token, localPath, repoUrl⟩

/-- `model_dump` of a `WikiCacheData`. -/
def WikiCacheData.dump (d : WikiCacheData) : Json :=
  .obj [("wiki_structure", d.wiki_structure.dump),
        ("generated_pages", .obj (d.generated_pages.map (fun kv => (kv.1, kv.2.dump)))),
        ("repo_url", dumpOptStr d.repo_url),
        ("repo", match d.repo with
          | none => .null
          | some r => r.dump),
        ("provider", dumpOptStr d.provider),
        ("model", dumpOptStr d.model)]

/-- Validation of a `Dict[str, WikiPage]` field. -/
def Json.asPageDict : Json → Option (List (String × WikiPage))
  | .obj fields => mapMOpt (fun kv => (WikiPage.load kv.2).map (fun p => (kv.1, p))) fields
  | _ => none

/-- Test for the JSON `null` value. -/
def Json.isNull : Json → Bool
  | .null => true
  | _ => false

/-- Validation of an `Optional[RepoInfo]` field. -/
def Json.asOptRepoInfo (j : Json) : Option (Option RepoInfo) :=
  if j.isNull then some none else (RepoInfo.load j).map some

/-- `WikiCacheData(**data)` validation. -/
def WikiCacheData.load (j : Json) : Option WikiCacheData := do
  let ws ← (j.getField ("wiki_structure")).bind WikiStructureModel.load
  let gp ← (j.getField ("generated_pages")).bind Json.asPageDict
  let repo_url ← (j.getField ("repo_url")).bind Json.asOptStr
  let repo ← (j.getField ("repo")).bind Json.asOptRepoInfo
  let provider ← (j.getField ("provider")).bind Json.asOptStr
  let model ← (j.getField ("model")).bind Json.asOptStr
  pure ⟨ws, gp, repo_url, repo, provider, model⟩

/-! ## Executable string primitives

Python's `str` operations are modelled by structurally recursive functions
on the character list of a `String`, so that every definition evaluates
inside the kernel. -/

/-- `p` is a prefix of `s` (Python `str.startswith`). -/
def listStartsWith : List Char → List Char → Bool
  | [], _ => true
  | _ :: _, [] => false
  | a :: ps, b :: ss => a == b && listStartsWith ps ss

/-- Python `s.startswith(p)`. -/
def startsWithPy (s p : String) : Bool := listStartsWith p.data s.data

/-- Python `s.endswith(p)`. -/
def endsWithPy (s p : String) : Bool := listStartsWith p.data.reverse s.data.reverse

/-- Fuel-based splitter: split `s` on every non-overlapping occurrence of
the non-empty separator `sep`, scanning left to right (Python `str.split`
with an explicit separator).  `acc` holds the current piece reversed; the
fuel dominates the length of the remaining input. -/
def splitOnAuxL (sep : List Char) : Nat → List Char → List Char → List (List Char)
  | _, acc, [] => [acc.reverse]
  | 0, acc, rest => [acc.reverse ++ rest]
  | n + 1, acc, c :: rest =>
    if listStartsWith sep (c :: rest) && !sep.isEmpty then
      acc.reverse :: splitOnAuxL sep n [] (List.drop sep.length (c :: rest))
    else
      splitOnAuxL sep n (c :: acc) rest

/-- Python `s.split(sep)` for a non-empty separator. -/
def splitOnPy (s sep : String) : List String :=
  (splitOnAuxL sep.data s.data.length [] s.data).map (fun l => ⟨l⟩)

/-- Python `s.replace(pat, rep)` for a non-empty pattern: split on the
pattern and rejoin with the replacement. -/
def replaceAllPy (s pat rep : String) : String :=
  String.intercalate rep (splitOnPy s pat)

/-- ASCII whitespace (the characters Python `str.strip` removes from the
payloads in question). -/
def isSpaceChar (c : Char) : Bool :=
  c == ' ' || c == '\t' || c == '\n' || c == '\r' || c == '\x0b' || c == '\x0c'

/-- Python `s.strip()`. -/
def stripPy (s : String) : String :=
  ⟨((s.data.dropWhile isSpaceChar).reverse.dropWhile isSpaceChar).reverse⟩

/-- Python `s.rstrip('/')`. -/
def rstripSlash (s : String) : String :=
  ⟨(s.data.reverse.dropWhile (fun c => c == '/')).reverse⟩

/-- ASCII lower-casing of one character (Python `str.lower` on the ASCII
provider identifiers in question). -/
def toLowerChar (c : Char) : Char :=
  if 'A' ≤ c && c ≤ 'Z' then Char.ofNat (c.toNat + 32) else c

/-- Python `s.lower()`. -/
def toLowerPy (s : String) : String := ⟨s.data.map toLowerChar⟩

/-! ## Filesystem model and cache store (api/api.py) -/

/-- Content of one file on disk: either text that parses as a JSON document,
or text that does not. -/
inductive FileContent where
  | json (j : Json)
  | corrupt

/-- The cache directory: a partial map from file paths to file contents. -/
def FileSystem : Type := String → Option FileContent

/-- Overwrite (or create) the file at `path`. -/
def FileSystem.write (fs : FileSystem) (path : String) (c : FileContent) : FileSystem :=
  fun p => if p = path then some c else fs p

/-- `os.remove`: drop the file at `path`. -/
def FileSystem.remove (fs : FileSystem) (path : String) : FileSystem :=
  fun p => if p = path then none else fs p

/-- Outcome of one filesystem interaction, decided by the environment:
the operation succeeds, raises `IOError`, or raises some other exception. -/
inductive DiskOutcome where
  | ok
  | ioError
  | otherError
deriving DecidableEq

/-- `get_wiki_cache_path` (api/api.py):
`os.path.join(WIKI_CACHE_DIR, f"deepwiki_cache_{repo_type}_{owner}_{repo}_{language}.json")`.
The global `WIKI_CACHE_DIR` is passed explicitly as `cacheDir`. -/
def get_wiki_cache_path (cacheDir owner repo repo_type language : String) : String :=
  cacheDir ++ "/" ++ "deepwiki_cache_" ++ repo_type ++ "_" ++ owner ++ "_" ++ repo
    ++ "_" ++ language ++ ".json"

/-- `read_wiki_cache` (api/api.py): if the file exists, open and parse it,
returning `None` on any exception; if it does not exist, return `None`. -/
def read_wiki_cache (fs : FileSystem) (cacheDir : String) (io : DiskOutcome)
    (owner repo repo_type language : String) : Option WikiCacheData :=
  let cache_path := get_wiki_cache_path cacheDir owner repo repo_type language
  match fs cache_path with
  | none => none
  | some content =>
    match io with
    | .ok =>
      match content with
      | .json j => WikiCacheData.load j
      | .corrupt => none
    | _ => none

/-- The `WikiCacheData` payload that `save_wiki_cache` builds from a request
(`repo_url` is left at its default `None`). -/
def savePayload (data : WikiCacheRequest) : WikiCacheData :=
  { wiki_structure := data.wiki_structure
    generated_pages := data.generated_pages
    repo_url := none
    repo := some data.repo
    provider := some data.provider
    model := some data.model }

/-- `save_wiki_cache` (api/api.py): serialise the payload and overwrite the
file at the cache path; return `True` on success, `False` if writing raises
`IOError` or any other exception. -/
def save_wiki_cache (fs : FileSystem) (cacheDir : String) (io : DiskOutcome)
    (data : WikiCacheRequest) : Bool × FileSystem :=
  let cache_path := get_wiki_cache_path cacheDir data.repo.owner data.repo.repo
    data.repo.type data.language
  match io with
  | .ok => (true, fs.write cache_path (.json (savePayload data).dump))
  | _ => (false, fs)

/-- The `lang_config` entry of the process configuration. -/
structure LangConfig where
  supported_languages : List String
  default : String

/-- The process-wide authorisation configuration (`WIKI_AUTH_MODE`,
`WIKI_AUTH_CODE` from api/config.py). -/
structure AuthConfig where
  wiki_auth_mode : Bool
  wiki_auth_code : String

/-- HTTP error responses raised by the cache endpoints. -/
inductive ApiError where
  | badRequest (detail : String)
  | unauthorized (detail : String)
  | notFound (detail : String)
  | serverError (detail : String)
deriving DecidableEq

/-- The authorisation check in `delete_wiki_cache` (api/api.py):
`WIKI_AUTH_MODE and (not authorization_code or WIKI_AUTH_CODE != authorization_code)`. -/
def authFailCheck (auth : AuthConfig) (code : Option String) : Bool :=
  auth.wiki_auth_mode && (match code with
    | none => true
    | some c => c == "" || auth.wiki_auth_code != c)

/-- `DELETE /api/wiki_cache` (`delete_wiki_cache`, api/api.py): reject an
unsupported language with 400; if `WIKI_AUTH_MODE` is set, reject a missing,
empty (falsy) or non-matching authorisation code with 401; then remove the
file, answering 404 if it does not exist and 500 if removal raises. -/
def delete_wiki_cache (lang : LangConfig) (auth : AuthConfig) (fs : FileSystem)
    (cacheDir : String) (io : DiskOutcome) (owner repo repo_type language : String)
    (authorization_code : Option String) : Except ApiError String × FileSystem :=
  if language ∉ lang.supported_languages then
    (.error (.badRequest ("Language is not supported")), fs)
  else
    if authFailCheck auth authorization_code then
      (.error (.unauthorized ("Authorization code is invalid")), fs)
    else
      let cache_path := get_wiki_cache_path cacheDir owner repo repo_type language
      match fs cache_path with
      | some _ =>
        match io with
        | .ok => (.ok ("Wiki cache deleted successfully"), fs.remove cache_path)
        | _ => (.error (.serverError ("Failed to delete wiki cache")), fs)
      | none => (.error (.notFound ("Wiki cache not found")), fs)

/-- `GET /api/wiki_cache` (`get_cached_wiki`, api/api.py): an unsupported
language is silently replaced by the configured default, then the cache is
read; `None` stands for the null body returned when nothing is found. -/
def get_cached_wiki (lang : LangConfig) (fs : FileSystem) (cacheDir : String)
    (io : DiskOutcome) (owner repo repo_type language : String) : Option WikiCacheData :=
  let language := if language ∈ lang.supported_languages then language else lang.default
  read_wiki_cache fs cacheDir io owner repo repo_type language

/-- `POST /api/wiki_cache` (`store_wiki_cache`, api/api.py): an unsupported
language is silently replaced by the configured default, then the record is
saved; a failed save answers 500. -/
def store_wiki_cache (lang : LangConfig) (fs : FileSystem) (cacheDir : String)
    (io : DiskOutcome) (request_data : WikiCacheRequest) :
    Except ApiError String × FileSystem :=
  let request_data := if request_data.language ∈ lang.supported_languages then request_data
    else { request_data with language := lang.default }
  let r := save_wiki_cache fs cacheDir io request_data
  if r.1 then (.ok ("Wiki cache saved successfully"), r.2)
  else (.error (.serverError ("Failed to save wiki cache")), r.2)

/-- Per-file step of `get_processed_projects` (api/api.py): keep files named
`deepwiki_cache_*.json`, strip the fixed pieces, split on the separator, and
require at least four components: first is the repo type, second the owner,
last the language, and everything between (joined back with the separator)
the repo. `submittedAt` is the file modification time in milliseconds. -/
def parseProjectFilename (filename : String) (mtimeSeconds : Nat) :
    Option ProcessedProjectEntry :=
  if startsWithPy filename ("deepwiki_cache_") && endsWithPy filename (".json") then
    let parts := splitOnPy (replaceAllPy (replaceAllPy filename ("deepwiki_cache_") ("")) (".json") ("")) ("_")
    match parts with
    | repo_type :: owner :: r :: rest =>
      match rest with
      | [] => none
      | _ :: _ =>
        let repo := String.intercalate ("_") ((r :: rest).dropLast)
        some { id := filename, owner := owner, repo := repo,
               name := owner ++ "/" ++ repo, repo_type := repo_type,
               submittedAt := mtimeSeconds * 1000,
               language := (r :: rest).getLast (List.cons_ne_nil r rest) }
    | _ => none
  else none

/-- `GET /api/processed_projects` (`get_processed_projects`, api/api.py):
scan the directory listing (filename and modification time per file), build
an entry per parseable filename, and sort by `submittedAt`, most recent
first (Python `list.sort(key=..., reverse=True)` — a stable descending
sort). -/
def get_processed_projects (listing : List (String × Nat)) :
    List ProcessedProjectEntry :=
  (listing.filterMap (fun fm => parseProjectFilename fm.1 fm.2)).mergeSort
    (fun a b => decide (b.submittedAt ≤ a.submittedAt))

/-! ## Stream decoder (`_handle_stream_response` in api/deepseek_client.py,
api/zhipuai_client.py and api/chinese_models_client.py — the three copies
are identical) -/

/-- `_handle_stream_response`: for each line of the response, ignore it
unless it starts with `data: `; strip that prefix; stop the whole stream at
the `[DONE]` sentinel; otherwise parse the payload as JSON, dropping frames
that fail to parse.  `parse` stands for `json.loads` (returning `none`
exactly when `json.JSONDecodeError` is raised). -/
def handleStreamResponse (parse : String → Option Json) : List String → List Json
  | [] => []
  | line :: rest =>
    if startsWithPy line ("data: ") then
      let data := line.drop 6
      if stripPy data == "[DONE]" then []
      else
        match parse data with
        | some j => j :: handleStreamResponse parse rest
        | none => handleStreamResponse parse rest
    else handleStreamResponse parse rest

/-! ## Provider adapters (api/deepseek_client.py, api/zhipuai_client.py,
api/chinese_models_client.py) -/

/-- Python truthiness of an optional string (`None` and `""` are falsy). -/
def pyTruthy (o : Option String) : Bool :=
  match o with
  | none => false
  | some s => s != ""

/-- Python `a or b` on optional strings. -/
def pyOrOpt (a b : Option String) : Option String := if pyTruthy a then a else b

/-- `raise ValueError(...)` at adapter construction. -/
inductive InitError where
  | valueError (msg : String)
deriving DecidableEq

/-- A constructed `DeepSeekClient` (api/deepseek_client.py). -/
structure DeepSeekClient where
  api_key : String
  base_url : String
deriving DecidableEq

/-- `DeepSeekClient.__init__`: `api_key or os.environ.get("DEEPSEEK_API_KEY")`,
then fail if the result is falsy. -/
def DeepSeekClient.init (env : String → Option String) (api_key : Option String)
    (base_url : String) : Except InitError DeepSeekClient :=
  let key := pyOrOpt api_key (env ("DEEPSEEK_API_KEY"))
  if pyTruthy key then
    .ok ⟨key.getD "", rstripSlash base_url⟩
  else
    .error (.valueError ("DeepSeek API key not set, set the DEEPSEEK_API_KEY environment variable"))

/-- A constructed `ZhipuAIClient` (api/zhipuai_client.py). -/
structure ZhipuAIClient where
  api_key : String
  base_url : String
deriving DecidableEq

/-- `ZhipuAIClient.__init__`: `api_key or os.environ.get("ZHIPUAI_API_KEY")`,
then fail if the result is falsy. -/
def ZhipuAIClient.init (env : String → Option String) (api_key : Option String)
    (base_url : String) : Except InitError ZhipuAIClient :=
  let key := pyOrOpt api_key (env ("ZHIPUAI_API_KEY"))
  if pyTruthy key then
    .ok ⟨key.getD "", rstripSlash base_url⟩
  else
    .error (.valueError ("ZhipuAI API key not set, set the ZHIPUAI_API_KEY environment variable"))

/-- One entry of the `provider_configs` table in
`ChineseModelsClient.__init__` (api/chinese_models_client.py). -/
structure ChineseProviderConfig where
  env_key : String
  default_base_url : String
  models : List String
deriving DecidableEq

/-- The `provider_configs` table (api/chinese_models_client.py). -/
def provider_configs : List (String × ChineseProviderConfig) :=
  [("moonshot", ⟨"MOONSHOT_API_KEY", "https://api.moonshot.cn/v1",
      ["moonshot-v1-8k", "moonshot-v1-32k", "moonshot-v1-128k"]⟩),
   ("wenxin", ⟨"WENXIN_API_KEY",
      "https://aip.baidubce.com/rpc/2.0/ai_custom/v1/wenxinworkshop",
      ["ernie-bot", "ernie-bot-turbo", "ernie-bot-4"]⟩),
   ("lingyi", ⟨"LINGYI_API_KEY", "https://api.lingyiwanwu.com/v1",
      ["yi-large", "yi-medium", "yi-small", "yi-vision"]⟩),
   ("minimax", ⟨"MINIMAX_API_KEY", "https://api.minimax.chat/v1",
      ["abab6.5", "abab6.5-chat", "abab5.5-chat"]⟩),
   ("doubao", ⟨"DOUBAO_API_KEY", "https://ark.cn-beijing.volces.com/api/v3",
      ["doubao-lite-4k", "doubao-lite-32k", "doubao-lite-128k", "doubao-pro-4k",
       "doubao-pro-32k"]⟩),
   ("stepfun", ⟨"STEPFUN_API_KEY", "https://api.stepfun.com/v1",
      ["step-1-8k", "step-1-32k", "step-1-128k", "step-1-256k"]⟩),
   ("xunfei", ⟨"XUNFEI_API_KEY", "https://spark-api.xf-yun.com/v1",
      ["spark-lite", "spark-pro", "spark-max"]⟩)]

/-- A constructed `ChineseModelsClient` (api/chinese_models_client.py). -/
structure ChineseModelsClient where
  provider : String
  api_key : String
  base_url : String
  available_models : List String
deriving DecidableEq

/-- `ChineseModelsClient.__init__`: lower-case the provider id, reject an
unknown one; resolve `api_key or os.environ.get(config["env_key"])` and fail
if the result is falsy; the base URL falls back to the provider default. -/
def ChineseModelsClient.init (env : String → Option String) (provider : String)
    (api_key : Option String) (base_url : Option String) :
    Except InitError ChineseModelsClient :=
  let p := toLowerPy provider
  match provider_configs.lookup p with
  | none => .error (.valueError ("Unsupported model provider: " ++ provider))
  | some config =>
    let key := pyOrOpt api_key (env config.env_key)
    let burl := rstripSlash ((pyOrOpt base_url (some config.default_base_url)).getD "")
    if pyTruthy key then
      .ok ⟨p, key.getD "", burl, config.models⟩
    else
      .error (.valueError (provider ++ " API key not set, set the "
        ++ config.env_key ++ " environment variable"))

/-- The keys of the `model_mapping` dict in `DeepSeekClient.chat_completion`
(every key maps to itself). -/
def deepseek_model_mapping : List (String × String) :=
  [("deepseek-chat", "deepseek-chat"), ("deepseek-coder", "deepseek-coder"),
   ("deepseek-chat-v1.5", "deepseek-chat-v1.5"),
   ("deepseek-coder-v1.5", "deepseek-coder-v1.5")]

/-- The keys of the `model_mapping` dict in `ZhipuAIClient.chat_completion`
(every key maps to itself). -/
def zhipuai_model_mapping : List (String × String) :=
  [("glm-4.6", "glm-4.6"), ("glm-4", "glm-4"), ("glm-4-flash", "glm-4-flash"),
   ("glm-4-air", "glm-4-air"), ("glm-4-long", "glm-4-long"),
   ("chatglm3", "chatglm3"), ("glm-3-turbo", "glm-3-turbo")]

/-- The keys of the `DEEPSEEK_MODELS` catalog (api/deepseek_client.py), in
declaration order. -/
def DEEPSEEK_MODELS : List String :=
  ["deepseek-chat", "deepseek-coder", "deepseek-chat-v1.5", "deepseek-coder-v1.5"]

/-- The keys of the `ZHIPUAI_MODELS` catalog (api/zhipuai_client.py), in
declaration order. -/
def ZHIPUAI_MODELS : List String :=
  ["glm-4.6", "glm-4", "glm-4-flash", "glm-4-air", "glm-4-long", "chatglm3",
   "glm-3-turbo"]

/-- Model resolution in `DeepSeekClient.chat_completion`: a missing model
falls back to the default parameter `"deepseek-chat"`, then
`model_mapping.get(model, model)` is applied.  The second component records
whether a warning about an unknown model is logged: this adapter never logs
one. -/
def DeepSeekClient.resolveModel (model : Option String) : String × Bool :=
  let m := model.getD "deepseek-chat"
  ((deepseek_model_mapping.lookup m).getD m, false)

/-- Model resolution in `ZhipuAIClient.chat_completion`: a missing model
falls back to the default parameter `"glm-4.6"`, then
`model_mapping.get(model, model)` is applied; no warning is ever logged. -/
def ZhipuAIClient.resolveModel (model : Option String) : String × Bool :=
  let m := model.getD "glm-4.6"
  ((zhipuai_model_mapping.lookup m).getD m, false)

/-- Model resolution in `ChineseModelsClient.chat_completion`: a falsy model
argument (`None` or `""`) falls back to `self.available_models[0]`; a model
outside `self.available_models` is kept but a warning is logged. -/
def ChineseModelsClient.resolveModel (c : ChineseModelsClient)
    (model : Option String) : String × Bool :=
  let m := if pyTruthy model then model.getD "" else c.available_models.headD ""
  (m, decide (m ∉ c.available_models))

/-! ## Mock embedder (api/mock_embedder.py)

`MockEmbedderClient.call` seeds Python's global `random` with
`hashlib.md5(text.encode()).hexdigest()` and draws 256 values with
`random.uniform(-1, 1)`.  Everything below is modelled exactly:

* MD5 and SHA-512 over byte lists (32/64-bit words as `Nat` with explicit
  `% 2^32` / `% 2^64`);
* CPython `random.seed(a : str)` (version 2): the seed integer is
  `int.from_bytes(a.encode() + sha512(a.encode()).digest(), 'big')`, split
  into little-endian 32-bit limbs and fed to MT19937's `init_by_array`;
* the MT19937 generator (`init_genrand`, `init_by_array`, the twist and the
  tempering), written as linear scans equivalent to the C reference loops;
* `random.random()` returns `(a * 2^26 + b) / 2^53` with `a = genrand() >> 5`
  and `b = genrand() >> 6`; this value, and `uniform(-1,1) = -1 + 2·random()`,
  are exactly representable IEEE doubles, so the rational model is
  bit-faithful to CPython floats. -/

/-- UTF-8 encoding of one code point. -/
def utf8Bytes (c : Nat) : List Nat :=
  if c < 128 then [c]
  else if c < 2048 then [192 + c / 64, 128 + c % 64]
  else if c < 65536 then [224 + c / 4096, 128 + (c / 64) % 64, 128 + c % 64]
  else [240 + c / 262144, 128 + (c / 4096) % 64, 128 + (c / 64) % 64, 128 + c % 64]

/-- Python `text.encode()`. -/
def strBytes (s : String) : List Nat := s.data.flatMap (fun c => utf8Bytes c.toNat)

/-- `k` little-endian bytes of `n`. -/
def leBytes : Nat → Nat → List Nat
  | 0, _ => []
  | k + 1, n => (n % 256) :: leBytes k (n / 256)

/-- `k` big-endian bytes of `n`. -/
def beBytes (k n : Nat) : List Nat := (leBytes k n).reverse

/-- Python `int.from_bytes(bs, 'big')`. -/
def intFromBytesBE (bs : List Nat) : Nat := bs.foldl (fun a b => a * 256 + b) 0

/-- Split a list into chunks of `n` (fuel-based). -/
def chunksOf {α : Type} (n : Nat) : Nat → List α → List (List α)
  | _, [] => []
  | 0, rest => [rest]
  | fuel + 1, xs => xs.take n :: chunksOf n fuel (xs.drop n)

/-- A 32-bit word from four little-endian bytes. -/
def leWord (bs : List Nat) : Nat :=
  match bs with
  | [b0, b1, b2, b3] => b0 + 256 * (b1 + 256 * (b2 + 256 * b3))
  | _ => 0

/-- A 64-bit word from eight big-endian bytes. -/
def beWord8 (bs : List Nat) : Nat := intFromBytesBE bs

/-- 32-bit left rotation. -/
def rotl32 (x n : Nat) : Nat := ((x <<< n) % 4294967296) ||| (x >>> (32 - n))

/-- 64-bit right rotation. -/
def rotr64 (x n : Nat) : Nat := (x >>> n) ||| ((x <<< (64 - n)) % 18446744073709551616)

/-- Lower-case hex digit. -/
def toHexChar (n : Nat) : Char := if n < 10 then Char.ofNat (48 + n) else Char.ofNat (87 + n)

/-- Two hex digits of a byte. -/
def byteToHex (b : Nat) : List Char := [toHexChar (b / 16), toHexChar (b % 16)]

/-- The 64 MD5 round constants `floor(2^32 * abs(sin(i+1)))`. -/
def md5K : List Nat :=
  [3614090360, 3905402710, 606105819, 3250441966, 4118548399, 1200080426,
   2821735955, 4249261313, 1770035416, 2336552879, 4294925233, 2304563134,
   1804603682, 4254626195, 2792965006, 1236535329, 4129170786, 3225465664,
   643717713, 3921069994, 3593408605, 38016083, 3634488961, 3889429448,
   568446438, 3275163606, 4107603335, 1163531501, 2850285829, 4243563512,
   1735328473, 2368359562, 4294588738, 2272392833, 1839030562, 4259657740,
   2763975236, 1272893353, 4139469664, 3200236656, 681279174, 3936430074,
   3572445317, 76029189, 3654602809, 3873151461, 530742520, 3299628645,
   4096336452, 1126891415, 2878612391, 4237533241, 1700485571, 2399980690,
   4293915773, 2240044497, 1873313359, 4264355552, 2734768916, 1309151649,
   4149444226, 3174756917, 718787259, 3951481745]

/-- The MD5 per-round left-rotation amounts. -/
def md5S : List Nat :=
  [7, 12, 17, 22, 7, 12, 17, 22, 7, 12, 17, 22,
   7, 12, 17, 22, 5, 9, 14, 20, 5, 9, 14, 20,
   5, 9, 14, 20, 5, 9, 14, 20, 4, 11, 16, 23,
   4, 11, 16, 23, 4, 11, 16, 23, 4, 11, 16, 23,
   6, 10, 15, 21, 6, 10, 15, 21, 6, 10, 15, 21,
   6, 10, 15, 21]

/-- The 80 SHA-512 round constants. -/
def sha512K : List Nat :=
  [4794697086780616226, 8158064640168781261, 13096744586834688815, 16840607885511220156,
   4131703408338449720, 6480981068601479193, 10538285296894168987, 12329834152419229976,
   15566598209576043074, 1334009975649890238, 2608012711638119052, 6128411473006802146,
   8268148722764581231, 9286055187155687089, 11230858885718282805, 13951009754708518548,
   16472876342353939154, 17275323862435702243, 1135362057144423861, 2597628984639134821,
   3308224258029322869, 5365058923640841347, 6679025012923562964, 8573033837759648693,
   10970295158949994411, 12119686244451234320, 12683024718118986047, 13788192230050041572,
   14330467153632333762, 15395433587784984357, 489312712824947311, 1452737877330783856,
   2861767655752347644, 3322285676063803686, 5560940570517711597, 5996557281743188959,
   7280758554555802590, 8532644243296465576, 9350256976987008742, 10552545826968843579,
   11727347734174303076, 12113106623233404929, 14000437183269869457, 14369950271660146224,
   15101387698204529176, 15463397548674623760, 17586052441742319658, 1182934255886127544,
   1847814050463011016, 2177327727835720531, 2830643537854262169, 3796741975233480872,
   4115178125766777443, 5681478168544905931, 6601373596472566643, 7507060721942968483,
   8399075790359081724, 8693463985226723168, 9568029438360202098, 10144078919501101548,
   10430055236837252648, 11840083180663258601, 13761210420658862357, 14299343276471374635,
   14566680578165727644, 15097957966210449927, 16922976911328602910, 17689382322260857208,
   500013540394364858, 748580250866718886, 1242879168328830382, 1977374033974150939,
   2944078676154940804, 3659926193048069267, 4368137639120453308, 4836135668995329356,
   5532061633213252278, 6448918945643986474, 6902733635092675308, 7801388544844847127]

/-- The SHA-512 initial hash state. -/
def sha512H0 : List Nat :=
  [7640891576956012808, 13503953896175478587, 4354685564936845355, 11912009170470909681,
   5840696475078001361, 11170449401992604703, 2270897969802886507, 6620516959819538809]

/-- Apply `k` to `n`; matching on `n` first forces call-by-name kernel
reduction to evaluate `n` to a literal before it is duplicated, keeping
evaluation of the recursive definitions below linear.  Semantically the
identity application (`forceNat_eq`). -/
def forceNat {α : Type} (n : Nat) (k : Nat → α) : α :=
  match n with
  | 0 => k 0
  | m + 1 => k (m + 1)

/-- MD5 round function F (rounds 0-15); `~b` is `b ^^^ 0xffffffff` on
32-bit values. -/
def md5F (b c d : Nat) : Nat := (b &&& c) ||| ((b ^^^ 4294967295) &&& d)

/-- MD5 round function G (rounds 16-31). -/
def md5G (b c d : Nat) : Nat := (d &&& b) ||| ((d ^^^ 4294967295) &&& c)

/-- MD5 round function H (rounds 32-47). -/
def md5Hf (b c d : Nat) : Nat := b ^^^ c ^^^ d

/-- MD5 round function I (rounds 48-63). -/
def md5If (b c d : Nat) : Nat := c ^^^ (b ||| (d ^^^ 4294967295))

/-- One MD5 round on state `(a, b, c, d)` with message words `m`. -/
def md5Round (m : List Nat) (st : Nat × Nat × Nat × Nat) (i : Nat) : Nat × Nat × Nat × Nat :=
  match st with
  | (a, b, c, d) =>
    let fg : Nat × Nat :=
      if i < 16 then (md5F b c d, i)
      else if i < 32 then (md5G b c d, (5 * i + 1) % 16)
      else if i < 48 then (md5Hf b c d, (3 * i + 5) % 16)
      else (md5If b c d, (7 * i) % 16)
    let f2 := (fg.1 + a + md5K.getD i 0 + m.getD fg.2 0) % 4294967296
    forceNat ((b + rotl32 f2 (md5S.getD i 0)) % 4294967296) (fun b2 => (d, b2, b, c))

/-- MD5 compression of one 64-byte block. -/
def md5Chunk (st : Nat × Nat × Nat × Nat) (block : List Nat) : Nat × Nat × Nat × Nat :=
  let m := (chunksOf 4 block.length block).map leWord
  match st, (List.range 64).foldl (md5Round m) st with
  | (a0, b0, c0, d0), (a, b, c, d) =>
    ((a0 + a) % 4294967296, (b0 + b) % 4294967296, (c0 + c) % 4294967296,
     (d0 + d) % 4294967296)

/-- MD5 padding: `0x80`, zeros to 56 mod 64, 64-bit little-endian bit length. -/
def md5Pad (msg : List Nat) : List Nat :=
  let z := (55 + 64 - msg.length % 64) % 64
  msg ++ [128] ++ List.replicate z 0 ++ leBytes 8 (msg.length * 8)

/-- MD5 digest bytes of a byte message. -/
def md5Bytes (msg : List Nat) : List Nat :=
  let padded := md5Pad msg
  let blocks := chunksOf 64 padded.length padded
  match blocks.foldl md5Chunk (1732584193, 4023233417, 2562383102, 271733878) with
  | (a, b, c, d) => leBytes 4 a ++ leBytes 4 b ++ leBytes 4 c ++ leBytes 4 d

/-- `hashlib.md5(s.encode()).hexdigest()`. -/
def md5hex (s : String) : String := ⟨(md5Bytes (strBytes s)).flatMap byteToHex⟩

/-- SHA-512 message schedule extension: prepend the next word, `fuel` times,
to the reversed word list. -/
def sha512Ext : Nat → List Nat → List Nat
  | 0, acc => acc
  | n + 1, acc =>
    let w2 := acc.getD 1 0
    let w7 := acc.getD 6 0
    let w15 := acc.getD 14 0
    let w16 := acc.getD 15 0
    let s0 := (rotr64 w15 1) ^^^ (rotr64 w15 8) ^^^ (w15 >>> 7)
    let s1 := (rotr64 w2 19) ^^^ (rotr64 w2 61) ^^^ (w2 >>> 6)
    forceNat ((w16 + s0 + w7 + s1) % 18446744073709551616)
      (fun v => sha512Ext n (v :: acc))

/-- One SHA-512 compression round on state `[a,b,c,d,e,f,g,h]`. -/
def sha512Round (w : List Nat) (st : List Nat) (i : Nat) : List Nat :=
  match st with
  | [a, b, c, d, e, f, g, h] =>
    let s1 := (rotr64 e 14) ^^^ (rotr64 e 18) ^^^ (rotr64 e 41)
    let ch := (e &&& f) ^^^ ((e ^^^ 18446744073709551615) &&& g)
    let t1 := (h + s1 + ch + sha512K.getD i 0 + w.getD i 0) % 18446744073709551616
    let s0 := (rotr64 a 28) ^^^ (rotr64 a 34) ^^^ (rotr64 a 39)
    let mj := (a &&& b) ^^^ (a &&& c) ^^^ (b &&& c)
    let t2 := (s0 + mj) % 18446744073709551616
    forceNat ((t1 + t2) % 18446744073709551616) (fun a2 =>
      forceNat ((d + t1) % 18446744073709551616) (fun e2 =>
        [a2, a, b, c, e2, e, f, g]))
  | _ => st

/-- SHA-512 compression of one 128-byte block. -/
def sha512Chunk (st : List Nat) (block : List Nat) : List Nat :=
  let w16rev := ((chunksOf 8 block.length block).map beWord8).reverse
  let w := (sha512Ext 64 w16rev).reverse
  let fin := (List.range 80).foldl (sha512Round w) st
  (st.zip fin).map (fun p => (p.1 + p.2) % 18446744073709551616)

/-- SHA-512 padding: `0x80`, zeros to 112 mod 128, 128-bit big-endian bit
length. -/
def sha512Pad (msg : List Nat) : List Nat :=
  let z := (111 + 128 - msg.length % 128) % 128
  msg ++ [128] ++ List.replicate z 0 ++ beBytes 16 (msg.length * 8)

/-- SHA-512 digest bytes of a byte message. -/
def sha512Bytes (msg : List Nat) : List Nat :=
  let padded := sha512Pad msg
  let blocks := chunksOf 128 padded.length padded
  (blocks.foldl sha512Chunk sha512H0).flatMap (beBytes 8)

/-- CPython `random.seed(s)` for `s : str` (version 2): the integer
`int.from_bytes(s.encode() + sha512(s.encode()).digest(), 'big')`. -/
def pySeedInt (s : String) : Nat :=
  intFromBytesBE (strBytes s ++ sha512Bytes (strBytes s))

/-- Little-endian 32-bit limbs of `n` (fuel-based). -/
def leLimbs : Nat → Nat → List Nat
  | 0, _ => []
  | fuel + 1, n => if n = 0 then [] else (n % 4294967296) :: leLimbs fuel (n / 4294967296)

/-- The `init_by_array` key CPython builds from the seed integer:
its little-endian 32-bit limbs (`[0]` for zero). -/
def seedKey (n : Nat) : List Nat := if n = 0 then [0] else leLimbs 64 n

/-- MT19937 `init_genrand` recurrence, producing `fuel` further state words
from the previous word and the running index. -/
def initGenrandAux : Nat → Nat → Nat → List Nat
  | 0, _, _ => []
  | fuel + 1, prev, i =>
    forceNat ((1812433253 * (prev ^^^ (prev >>> 30)) + i) % 4294967296)
      (fun v => v :: initGenrandAux fuel v (i + 1))

/-- MT19937 `init_genrand`: the 624-word state seeded from `s`. -/
def init_genrand (s : Nat) : List Nat :=
  let m0 := s % 4294967296
  m0 :: initGenrandAux 623 m0 1

/-- A left-to-right state-mixing scan: each element is replaced by
`f prev cur i` where `prev` is the already-replaced previous element
and `i` the running index (the body of the `init_by_array` loops). -/
def mixScan (f : Nat → Nat → Nat → Nat) : Nat → Nat → List Nat → List Nat
  | _, _, [] => []
  | prev, i, x :: rest =>
    forceNat (f prev x i) (fun v => v :: mixScan f v (i + 1) rest)

/-- MT19937 `init_by_array`: seed with 19650218, run the first mixing loop
for 624 iterations (indices 1..623, then a wrap `mt[0] := mt[623]` and one
more iteration at index 1; the key index `j` is `(i-1) mod keyLen`, and
`623 mod keyLen` at the wrapped iteration), run the second mixing loop for
623 iterations (indices 2..623, wrap, one more at index 1), and finally set
`mt[0] := 0x80000000`.  All arithmetic is mod `2^32` as in the C source. -/
def init_by_array (key : List Nat) : List Nat :=
  let keyLen := key.length
  match init_genrand 19650218 with
  | [] => []
  | m0 :: tail =>
    let f1 := fun prev x i =>
      let j := (i - 1) % keyLen
      ((x ^^^ (((prev ^^^ (prev >>> 30)) * 1664525) % 4294967296))
        + key.getD j 0 + j) % 4294967296
    let tail1 := mixScan f1 m0 1 tail
    let m623 := tail1.getLastD 0
    let j624 := 623 % keyLen
    let v1 := ((tail1.headD 0 ^^^ (((m623 ^^^ (m623 >>> 30)) * 1664525) % 4294967296))
      + key.getD j624 0 + j624) % 4294967296
    let f2 := fun prev x i =>
      ((x ^^^ (((prev ^^^ (prev >>> 30)) * 1566083941) % 4294967296))
        + (4294967296 - i)) % 4294967296
    let tailB := mixScan f2 v1 2 (tail1.drop 1)
    let b623 := tailB.getLastD 0
    let w1 := ((v1 ^^^ (((b623 ^^^ (b623 >>> 30)) * 1566083941) % 4294967296))
      + (4294967296 - 1)) % 4294967296
    2147483648 :: w1 :: tailB

/-- One word of the MT19937 twist: `y` combines the upper bit of `cur` with
the lower 31 bits of `next`; the result is `src ^ (y >> 1)`, xored with
`0x9908b0df` when `y` is odd. -/
def twistVal (cur next src : Nat) : Nat :=
  let y := (cur &&& 2147483648) ||| (next &&& 2147483647)
  (src ^^^ (y >>> 1) ^^^ (if y % 2 = 1 then 2567483615 else 0)) % 4294967296

/-- The MT19937 twist for indices `0..622`: `src` is the old word at
`k + 397` while `k < 227`, and the already-regenerated word at `k - 227`
afterwards; `accRev` holds the regenerated words in reverse, so the word at
`k - 227` sits at position 226 from its front. -/
def twistLoop : List (Nat × Nat) → List Nat → List Nat → Nat → List Nat
  | [], _, _, _ => []
  | (c, nx) :: ps, o, accRev, k =>
    let src := if k < 227 then o.getD (k + 397) 0 else accRev.getD 226 0
    forceNat (twistVal c nx src)
      (fun v => v :: twistLoop ps o (v :: accRev) (k + 1))

/-- The full MT19937 twist (state regeneration): the last word pairs the old
`mt[623]` with the new `mt[0]` and draws `src` from the new `mt[396]`. -/
def twist (o : List Nat) : List Nat :=
  let body := twistLoop (o.zip (o.drop 1)) o [] 0
  body ++ [twistVal (o.getD 623 0) (body.getD 0 0) (body.getD 396 0)]

/-- The MT19937 tempering of one output word (each step mod `2^32`). -/
def temper (y : Nat) : Nat :=
  let y1 := (y ^^^ (y >>> 11)) % 4294967296
  let y2 := (y1 ^^^ ((y1 <<< 7) &&& 2636928640)) % 4294967296
  let y3 := (y2 ^^^ ((y2 <<< 15) &&& 4022730752)) % 4294967296
  (y3 ^^^ (y3 >>> 18)) % 4294967296

/-- The first `count` outputs after seeding (`count ≤ 624`, so a single
twist suffices: CPython leaves `mti = 624` after seeding). -/
def mtOutputs (mt : List Nat) (count : Nat) : List Nat :=
  ((twist mt).take count).map temper

/-- One `random.uniform(-1, 1)` value from two raw generator words:
`random() = (a·2^26 + b) / 2^53` with `a = g1 >> 5`, `b = g2 >> 6`, and
`uniform(-1,1) = -1 + 2·random()`; both are exact IEEE doubles, so the
rational value is bit-faithful. -/
def uniformOfPair (g1 g2 : Nat) : ℚ :=
  -1 + 2 * ((((g1 >>> 5) * 67108864 + (g2 >>> 6) : Nat) : ℚ) / 9007199254740992)

/-- Consecutive `uniform(-1, 1)` draws from a stream of raw words. -/
def pairUniform : List Nat → List ℚ
  | g1 :: g2 :: rest => uniformOfPair g1 g2 :: pairUniform rest
  | _ => []

/-- The embedding of one text (`MockEmbedderClient.call`, api/mock_embedder.py):
seed the generator with the MD5 hexdigest of the text and draw 256
`uniform(-1, 1)` values (512 raw words). -/
def mockEmbedOne (text : String) : List ℚ :=
  pairUniform (mtOutputs (init_by_array (seedKey (pySeedInt (md5hex text)))) 512)

/-- `MockEmbedderClient.call` on a list of texts: one embedding per text. -/
def MockEmbedderClient.call (input : List String) : List (List ℚ) :=
  input.map mockEmbedOne

/-- The `init_by_array` key for the seed `md5hex "hello"`, as evaluated
below in `C9_mock_embedder`. -/
def keyHello : List Nat :=
  [91917177, 2892112188, 1530660391, 2254749075, 3287742599, 3342292165, 4126549461,
   3428760963, 1710292598, 123187760, 119066206, 1787367621, 3670569850, 475048856,
   1952814570, 1876336783, 1664432434, 825241911, 962869553, 1647916849, 845231926,
   1650668642, 875573857, 895759409]

/-- The `init_by_array` key for the seed `md5hex "world"`. -/
def keyWorld : List Nat :=
  [939860149, 1571161, 247413259, 1718882403, 1655819140, 3813601502, 2149620350,
   3894669153, 1525052112, 3311931423, 3434496617, 4100512879, 17808397, 3127533409,
   3774036238, 538632520, 859137335, 1714578996, 808597554, 892810338, 808532022,
   1630549814, 858796855, 929314617]

theorem mapM_asStr_map_str (xs : List String) :
    mapMOpt Json.asStr (xs.map Json.str) = some xs := by
  induction xs with
  | nil => rfl
  | cons x xs ih => simp [mapMOpt, ih, Json.asStr]

theorem asStrList_dumpStrList (xs : List String) :
    Json.asStrList (dumpStrList xs) = some xs := by
  simp [Json.asStrList, dumpStrList, mapM_asStr_map_str]

theorem asOptStrList_dumpOptStrList (o : Option (List String)) :
    Json.asOptStrList (dumpOptStrList o) = some o := by
  cases o with
  | none => rfl
  | some xs => simp [dumpOptStrList, dumpStrList, Json.asOptStrList, mapM_asStr_map_str]

theorem asOptStr_dumpOptStr (o : Option String) :
    Json.asOptStr (dumpOptStr o) = some o := by
  cases o <;> rfl

theorem WikiPage_load_dump (p : WikiPage) : WikiPage.load p.dump = some p := by
  simp [WikiPage.load, WikiPage.dump, Json.getField, List.lookup, Json.asStr,
        asStrList_dumpStrList, Option.bind]

theorem WikiSection_load_dump (s : WikiSection) : WikiSection.load s.dump = some s := by
  simp [WikiSection.load, WikiSection.dump, Json.getField, List.lookup, Json.asStr,
        asStrList_dumpStrList, asOptStrList_dumpOptStrList, Option.bind]

theorem mapM_sectionLoad_map_dump (ss : List WikiSection) :
    mapMOpt WikiSection.load (ss.map WikiSection.dump) = some ss := by
  induction ss with
  | nil => rfl
  | cons s ss ih => simp [mapMOpt, ih, WikiSection_load_dump]

theorem mapM_pageLoad_map_dump (ps : List WikiPage) :
    mapMOpt WikiPage.load (ps.map WikiPage.dump) = some ps := by
  induction ps with
  | nil => rfl
  | cons p ps ih => simp [mapMOpt, ih, WikiPage_load_dump]

theorem WikiStructureModel_load_dump (w : WikiStructureModel) :
    WikiStructureModel.load w.dump = some w := by
  cases w with
  | mk id title description pages sections rootSections =>
    cases sections with
    | none =>
      simp [WikiStructureModel.load, WikiStructureModel.dump, Json.getField, List.lookup,
            Json.asStr, Json.asPageList, Json.asOptSectionList,
            mapM_pageLoad_map_dump, asOptStrList_dumpOptStrList, Option.bind]
    | some ss =>
      simp [WikiStructureModel.load, WikiStructureModel.dump, Json.getField, List.lookup,
            Json.asStr, Json.asPageList, Json.asOptSectionList,
            mapM_pageLoad_map_dump, mapM_sectionLoad_map_dump,
            asOptStrList_dumpOptStrList, Option.bind]

theorem RepoInfo_load_dump (r : RepoInfo) : RepoInfo.load r.dump = some r := by
  simp [RepoInfo.load, RepoInfo.dump, Json.getField, List.lookup, Json.asStr,
        asOptStr_dumpOptStr, Option.bind]

theorem asPageDict_dump (gp : List (String × WikiPage)) :
    Json.asPageDict (.obj (gp.map (fun kv => (kv.1, kv.2.dump)))) = some gp := by
  induction gp with
  | nil => rfl
  | cons kv gp ih =>
    simp only [List.map_cons, Json.asPageDict, mapMOpt] at *
    simp [WikiPage_load_dump, ih]

theorem asOptRepoInfo_dump (r : Option RepoInfo) :
    Json.asOptRepoInfo (match r with | none => Json.null | some x => x.dump) = some r := by
  cases r with
  | none => rfl
  | some x =>
    simp [Json.asOptRepoInfo, RepoInfo_load_dump,
      show (RepoInfo.dump x).isNull = false from rfl]

theorem WikiCacheData_load_dump (d : WikiCacheData) :
    WikiCacheData.load d.dump = some d := by
  cases d with
  | mk ws gp repo_url repo provider model =>
    simp [WikiCacheData.load, WikiCacheData.dump, Json.getField, List.lookup,
          WikiStructureModel_load_dump, asPageDict_dump, asOptStr_dumpOptStr,
          asOptRepoInfo_dump, Option.bind]

/-! ## Separator splitting lemmas for cache-path injectivity -/

theorem sep_split_eq {α : Type} {c : α} :
    ∀ (x1 x2 y1 y2 : List α), x1 ++ c :: y1 = x2 ++ c :: y2 → c ∉ x1 → c ∉ x2 →
      x1 = x2 ∧ y1 = y2 := by
  intro x1
  induction x1 with
  | nil =>
    intro x2 y1 y2 h h1 h2
    cases x2 with
    | nil => simpa using h
    | cons a t =>
      simp only [List.nil_append, List.cons_append, List.cons.injEq] at h
      exact absurd (h.1 ▸ List.mem_cons_self a t) h2
  | cons a t ih =>
    intro x2 y1 y2 h h1 h2
    cases x2 with
    | nil =>
      simp only [List.nil_append, List.cons_append, List.cons.injEq] at h
      exact absurd (h.1 ▸ List.mem_cons_self a t) h1
    | cons b t2 =>
      simp only [List.cons_append, List.cons.injEq] at h
      obtain ⟨hx, hy⟩ := ih t2 y1 y2 h.2 (fun hm => h1 (List.mem_cons_of_mem a hm))
        (fun hm => h2 (List.mem_cons_of_mem b hm))
      exact ⟨by rw [h.1, hx], hy⟩

theorem sep_split_eq_right {α : Type} {c : α} {x1 x2 y1 y2 : List α}
    (h : x1 ++ c :: y1 = x2 ++ c :: y2) (h1 : c ∉ y1) (h2 : c ∉ y2) :
    x1 = x2 ∧ y1 = y2 := by
  have hrev : y1.reverse ++ c :: x1.reverse = y2.reverse ++ c :: x2.reverse := by
    have hr := congrArg List.reverse h
    simpa [List.reverse_append] using hr
  obtain ⟨hy, hx⟩ := sep_split_eq _ _ _ _ hrev (by simpa using h1) (by simpa using h2)
  exact ⟨List.reverse_injective hx, List.reverse_injective hy⟩

/-! ## Theorems -/

/-- C5: `get_wiki_cache_path` is a pure deterministic function of the four
key fields, producing `deepwiki_cache_<repoType>_<owner>_<repo>_<language>.json`
inside the cache directory in that fixed order; and it is injective on keys
whose owner, repo type and language contain no separator `'_'` (the repo
may contain separators). -/
theorem C5_keyToPath_shape_and_injective :
    (∀ cacheDir owner repo repo_type language : String,
      get_wiki_cache_path cacheDir owner repo repo_type language =
        cacheDir ++ "/" ++
          ("deepwiki_cache_" ++ repo_type ++ "_" ++ owner ++ "_" ++ repo ++ "_"
            ++ language ++ ".json"))
    ∧ (∀ cacheDir o1 r1 t1 l1 o2 r2 t2 l2 : String,
        '_' ∉ t1.data → '_' ∉ t2.data → '_' ∉ o1.data → '_' ∉ o2.data →
        '_' ∉ l1.data → '_' ∉ l2.data →
        get_wiki_cache_path cacheDir o1 r1 t1 l1 = get_wiki_cache_path cacheDir o2 r2 t2 l2 →
        o1 = o2 ∧ r1 = r2 ∧ t1 = t2 ∧ l1 = l2) := by
  constructor
  · intro cacheDir owner repo repo_type language
    apply String.ext
    simp [get_wiki_cache_path, String.data_append]
  · intro cacheDir o1 r1 t1 l1 o2 r2 t2 l2 ht1 ht2 ho1 ho2 hl1 hl2 h
    have hd := congrArg String.data h
    simp only [get_wiki_cache_path, String.data_append, List.append_assoc,
      List.singleton_append, List.cons_append, List.nil_append] at hd
    replace hd := List.append_cancel_left hd
    simp only [List.cons.injEq, true_and, List.nil_append] at hd
    obtain ⟨hT, hd⟩ := sep_split_eq _ _ _ _ hd ht1 ht2
    obtain ⟨hO, hd⟩ := sep_split_eq _ _ _ _ hd ho1 ho2
    obtain ⟨hR, hd⟩ := sep_split_eq_right hd (by simp [hl1]) (by simp [hl2])
    have hL := List.append_cancel_right hd
    exact ⟨String.ext hO, String.ext hR, String.ext hT, String.ext hL⟩

/-- Witness for C5 at the concrete key
`{owner := "octocat", repo := "hello_world", repoType := "github",
language := "en"}` (the repo itself contains the separator). -/
theorem C5_keyToPath_witness :
    ("octocat" : String) = "octocat" ∧ ("hello_world" : String) = "hello_world" ∧
    ("github" : String) = "github" ∧ ("en" : String) = "en" := by
  have h := C5_keyToPath_shape_and_injective.2 "/cache/wikicache"
    "octocat" "hello_world" "github" "en" "octocat" "hello_world" "github" "en"
    (by decide) (by decide) (by decide) (by decide) (by decide) (by decide) rfl
  exact ⟨h.1, h.2.1, h.2.2.1, h.2.2.2⟩

/-- C1: cache round-trip.  Writing a record and reading the same key back
(with succeeding I/O) returns exactly the payload that was written, field
for field; deleting the key (language supported, authorisation mode off)
and reading it back returns absent. -/
theorem C1_cache_round_trip :
    (∀ (fs : FileSystem) (cacheDir : String) (data : WikiCacheRequest),
      read_wiki_cache (save_wiki_cache fs cacheDir .ok data).2 cacheDir .ok
        data.repo.owner data.repo.repo data.repo.type data.language
        = some (savePayload data))
    ∧ (∀ (lang : LangConfig) (auth : AuthConfig) (fs : FileSystem) (cacheDir : String)
        (owner repo repo_type language : String) (code : Option String),
        language ∈ lang.supported_languages → auth.wiki_auth_mode = false →
        read_wiki_cache
          (delete_wiki_cache lang auth fs cacheDir .ok owner repo repo_type language code).2
          cacheDir .ok owner repo repo_type language = none) := by
  constructor
  · intro fs cacheDir data
    simp [read_wiki_cache, save_wiki_cache, FileSystem.write, WikiCacheData_load_dump]
  · intro lang auth fs cacheDir owner repo repo_type language code hlang hauth
    simp only [delete_wiki_cache, authFailCheck, hauth, Bool.false_and]
    cases hfs : fs (get_wiki_cache_path cacheDir owner repo repo_type language) with
    | none => simp [read_wiki_cache, hlang, hfs]
    | some c => simp [read_wiki_cache, FileSystem.remove, hlang, hfs]

/-- Witness for C1: a concrete delete-then-read on a concrete
configuration returns absent. -/
theorem C1_cache_round_trip_witness :
    (("en" : String) ∈ (["en", "zh"] : List String)) ∧
    read_wiki_cache
      (delete_wiki_cache ⟨["en", "zh"], "en"⟩ ⟨false, "secret"⟩ (fun _ => none)
        "cache" .ok "octocat" "hello-world" "github" "en" none).2
      "cache" .ok "octocat" "hello-world" "github" "en" = none :=
  ⟨by decide,
   C1_cache_round_trip.2 ⟨["en", "zh"], "en"⟩ ⟨false, "secret"⟩ (fun _ => none)
     "cache" "octocat" "hello-world" "github" "en" none (by decide) rfl⟩

/-- C7: cache error discipline.  `read_wiki_cache` is a total function into
`Option` (it never raises): a missing file, unparseable content, or an I/O
error all yield absent.  `save_wiki_cache` is a total function returning a
success boolean: succeeding I/O unconditionally overwrites the file at the
cache path and returns `true`; failing I/O returns `false` and leaves the
filesystem unchanged. -/
theorem C7_cache_error_discipline :
    (∀ (fs : FileSystem) (cacheDir : String) (io : DiskOutcome)
        (owner repo repo_type language : String),
      fs (get_wiki_cache_path cacheDir owner repo repo_type language) = none →
      read_wiki_cache fs cacheDir io owner repo repo_type language = none)
    ∧ (∀ (fs : FileSystem) (cacheDir : String) (io : DiskOutcome)
        (owner repo repo_type language : String),
      fs (get_wiki_cache_path cacheDir owner repo repo_type language) = some .corrupt →
      read_wiki_cache fs cacheDir io owner repo repo_type language = none)
    ∧ (∀ (fs : FileSystem) (cacheDir : String) (io : DiskOutcome)
        (owner repo repo_type language : String),
      io ≠ .ok →
      read_wiki_cache fs cacheDir io owner repo repo_type language = none)
    ∧ (∀ (fs : FileSystem) (cacheDir : String) (data : WikiCacheRequest),
      save_wiki_cache fs cacheDir .ok data =
        (true, fs.write (get_wiki_cache_path cacheDir data.repo.owner data.repo.repo
          data.repo.type data.language) (.json (savePayload data).dump)))
    ∧ (∀ (fs : FileSystem) (cacheDir : String) (io : DiskOutcome)
        (data : WikiCacheRequest),
      io ≠ .ok → save_wiki_cache fs cacheDir io data = (false, fs)) := by
  refine ⟨?_, ?_, ?_, ?_, ?_⟩
  · intro fs cacheDir io owner repo repo_type language h
    simp [read_wiki_cache, h]
  · intro fs cacheDir io owner repo repo_type language h
    cases io <;> simp [read_wiki_cache, h]
  · intro fs cacheDir io owner repo repo_type language h
    cases hfs : fs (get_wiki_cache_path cacheDir owner repo repo_type language) with
    | none => simp [read_wiki_cache, hfs]
    | some c => cases io with
      | ok => exact absurd rfl h
      | ioError => simp [read_wiki_cache, hfs]
      | otherError => simp [read_wiki_cache, hfs]
  · intro fs cacheDir data
    rfl
  · intro fs cacheDir io data h
    cases io with
    | ok => exact absurd rfl h
    | ioError => rfl
    | otherError => rfl

/-- Witness for C7: a concrete corrupt file reads back as absent, and a
concrete failed write reports `false`. -/
theorem C7_cache_error_discipline_witness :
    ((fun _ => some FileContent.corrupt : FileSystem)
        (get_wiki_cache_path "cache" "o" "r" "github" "en") = some .corrupt) ∧
    read_wiki_cache (fun _ => some FileContent.corrupt) "cache" .ok "o" "r" "github" "en"
      = none :=
  ⟨rfl, C7_cache_error_discipline.2.1 (fun _ => some FileContent.corrupt) "cache" .ok
    "o" "r" "github" "en" rfl⟩

/-- Counterexample to C4 as stated: when the authorisation mode is enabled
and the configured secret is the empty string, a supplied code equal to
that secret (so neither missing nor non-matching) is still rejected with
401 — Python falsiness of `""` fires before the comparison — so "when
authorization passes ... delete removes the file" fails at this input. -/
theorem C4_authorized_delete_counterexample :
    (some "" = some (AuthConfig.mk true "").wiki_auth_code) ∧
    (fun p => if p = get_wiki_cache_path "cache" "octocat" "hello-world" "github" "en"
        then some (FileContent.json .null) else none : FileSystem)
      (get_wiki_cache_path "cache" "octocat" "hello-world" "github" "en")
      = some (FileContent.json .null) ∧
    delete_wiki_cache ⟨["en"], "en"⟩ ⟨true, ""⟩
      (fun p => if p = get_wiki_cache_path "cache" "octocat" "hello-world" "github" "en"
        then some (FileContent.json .null) else none)
      "cache" .ok "octocat" "hello-world" "github" "en" (some "")
      = (.error (.unauthorized ("Authorization code is invalid")),
         fun p => if p = get_wiki_cache_path "cache" "octocat" "hello-world" "github" "en"
           then some (FileContent.json .null) else none) :=
  ⟨rfl, by simp, by simp [delete_wiki_cache, authFailCheck]⟩

/-- C4 (amended): with the authorisation mode enabled, a missing, empty or
non-matching code is rejected with 401 before any filesystem mutation; when
the mode is disabled, or a non-empty code equal to the configured secret is
supplied, the file at the cache path is removed if present, and the call
fails with 404 if it is absent. -/
theorem C4_authorized_delete
    (lang : LangConfig) (auth : AuthConfig) (fs : FileSystem) (cacheDir : String)
    (owner repo repo_type language : String) (code : Option String)
    (hlang : language ∈ lang.supported_languages) :
    (auth.wiki_auth_mode = true →
      (code = none ∨ code = some "" ∨ (∃ c, code = some c ∧ c ≠ auth.wiki_auth_code)) →
      ∀ io, delete_wiki_cache lang auth fs cacheDir io owner repo repo_type language code
        = (.error (.unauthorized ("Authorization code is invalid")), fs))
    ∧ ((auth.wiki_auth_mode = false
        ∨ (∃ c, code = some c ∧ c ≠ "" ∧ c = auth.wiki_auth_code)) →
      (fs (get_wiki_cache_path cacheDir owner repo repo_type language)).isSome →
      delete_wiki_cache lang auth fs cacheDir .ok owner repo repo_type language code
        = (.ok ("Wiki cache deleted successfully"),
           fs.remove (get_wiki_cache_path cacheDir owner repo repo_type language)))
    ∧ ((auth.wiki_auth_mode = false
        ∨ (∃ c, code = some c ∧ c ≠ "" ∧ c = auth.wiki_auth_code)) →
      fs (get_wiki_cache_path cacheDir owner repo repo_type language) = none →
      ∀ io, delete_wiki_cache lang auth fs cacheDir io owner repo repo_type language code
        = (.error (.notFound ("Wiki cache not found")), fs)) := by
  have hauthPass : (auth.wiki_auth_mode = false
      ∨ (∃ c, code = some c ∧ c ≠ "" ∧ c = auth.wiki_auth_code)) →
      authFailCheck auth code = false := by
    intro h
    rcases h with h | ⟨c, hc, hne, heq⟩
    · simp [authFailCheck, h]
    · subst hc
      subst heq
      simp [authFailCheck, hne]
  refine ⟨?_, ?_, ?_⟩
  · intro hmode hbad io
    have hfail : authFailCheck auth code = true := by
      rcases hbad with h | h | ⟨c, hc, hne⟩
      · simp [authFailCheck, h, hmode]
      · simp [authFailCheck, h, hmode]
      · subst hc
        simp [authFailCheck, hmode, hne]
        exact Or.inr (fun he => hne he.symm)
    simp [delete_wiki_cache, hlang, hfail]
  · intro hpass hsome
    cases hfs : fs (get_wiki_cache_path cacheDir owner repo repo_type language) with
    | none => rw [hfs] at hsome; exact absurd hsome (by simp)
    | some c => simp [delete_wiki_cache, hlang, hauthPass hpass, hfs]
  · intro hpass hnone io
    simp [delete_wiki_cache, hlang, hauthPass hpass, hnone]

/-- Witness for C4 (amended) at a concrete configuration: auth mode on,
missing code, 401 with the filesystem untouched. -/
theorem C4_authorized_delete_witness :
    (("en" : String) ∈ (["en"] : List String)) ∧
    delete_wiki_cache ⟨["en"], "en"⟩ ⟨true, "s3cret"⟩ (fun _ => none)
      "cache" .ok "octocat" "hello-world" "github" "en" none
      = (.error (.unauthorized ("Authorization code is invalid")), fun _ => none) :=
  ⟨by decide,
   (C4_authorized_delete ⟨["en"], "en"⟩ ⟨true, "s3cret"⟩ (fun _ => none) "cache"
     "octocat" "hello-world" "github" "en" none (by decide)).1 rfl (Or.inl rfl) .ok⟩

/-- C10: asymmetric handling of an unsupported language at the cache
endpoints.  Reads and writes silently substitute the configured default
language and proceed; delete rejects the request with 400 before the
authorisation check and before any filesystem access, for every
authorisation configuration, code and I/O outcome, leaving the filesystem
unchanged — it never falls back to the default language. -/
theorem C10_language_asymmetry :
    (∀ (lang : LangConfig) (fs : FileSystem) (cacheDir : String) (io : DiskOutcome)
        (owner repo repo_type language : String),
      language ∉ lang.supported_languages →
      get_cached_wiki lang fs cacheDir io owner repo repo_type language
        = read_wiki_cache fs cacheDir io owner repo repo_type lang.default)
    ∧ (∀ (lang : LangConfig) (fs : FileSystem) (cacheDir : String) (io : DiskOutcome)
        (request_data : WikiCacheRequest),
      request_data.language ∉ lang.supported_languages →
      store_wiki_cache lang fs cacheDir io request_data
        = store_wiki_cache lang fs cacheDir io { request_data with language := lang.default })
    ∧ (∀ (lang : LangConfig) (auth : AuthConfig) (fs : FileSystem) (cacheDir : String)
        (io : DiskOutcome) (owner repo repo_type language : String) (code : Option String),
      language ∉ lang.supported_languages →
      delete_wiki_cache lang auth fs cacheDir io owner repo repo_type language code
        = (.error (.badRequest ("Language is not supported")), fs)) := by
  refine ⟨?_, ?_, ?_⟩
  · intro lang fs cacheDir io owner repo repo_type language h
    simp [get_cached_wiki, h]
  · intro lang fs cacheDir io request_data h
    by_cases hd : lang.default ∈ lang.supported_languages
    · simp [store_wiki_cache, h, hd]
    · simp [store_wiki_cache, h, hd]
  · intro lang auth fs cacheDir io owner repo repo_type language code h
    simp [delete_wiki_cache, h]

/-- Witness for C10 at a concrete unsupported language: delete answers 400
while a read for the same key proceeds with the default language. -/
theorem C10_language_asymmetry_witness :
    (("fr" : String) ∉ (["en", "zh"] : List String)) ∧
    delete_wiki_cache ⟨["en", "zh"], "en"⟩ ⟨true, "s3cret"⟩ (fun _ => none)
      "cache" .ok "octocat" "hello-world" "github" "fr" none
      = (.error (.badRequest ("Language is not supported")), fun _ => none) :=
  ⟨by decide,
   C10_language_asymmetry.2.2 ⟨["en", "zh"], "en"⟩ ⟨true, "s3cret"⟩ (fun _ => none)
     "cache" .ok "octocat" "hello-world" "github" "fr" none (by decide)⟩

/-- C6: `get_processed_projects`.  For every directory state the output is
sorted by `submittedAt` descending and is a permutation of the per-file
parse results; a filename whose stripped body splits into at least four
components yields an entry whose repo type is the first component, owner
the second, language the last, and repo everything between rejoined with
the separator; a filename with fewer than four components is skipped
(parses to nothing), never aborting the scan. -/
theorem C6_list_processed_projects :
    (∀ listing : List (String × Nat),
      (get_processed_projects listing).Pairwise (fun a b => b.submittedAt ≤ a.submittedAt))
    ∧ (∀ listing : List (String × Nat),
      (get_processed_projects listing).Perm
        (listing.filterMap (fun fm => parseProjectFilename fm.1 fm.2)))
    ∧ (∀ (filename : String) (mtime : Nat) (repo_type owner r : String) (rest : List String),
      startsWithPy filename ("deepwiki_cache_") = true →
      endsWithPy filename (".json") = true →
      splitOnPy (replaceAllPy (replaceAllPy filename ("deepwiki_cache_") ("")) (".json") ("")) ("_")
        = repo_type :: owner :: r :: rest →
      rest ≠ [] →
      parseProjectFilename filename mtime = some
        { id := filename, owner := owner,
          repo := String.intercalate ("_") ((r :: rest).dropLast),
          name := owner ++ "/" ++ String.intercalate ("_") ((r :: rest).dropLast),
          repo_type := repo_type, submittedAt := mtime * 1000,
          language := (r :: rest).getLast (List.cons_ne_nil r rest) })
    ∧ (∀ (filename : String) (mtime : Nat),
      (splitOnPy (replaceAllPy (replaceAllPy filename ("deepwiki_cache_") ("")) (".json") ("")) ("_")).length < 4 →
      parseProjectFilename filename mtime = none) := by
  refine ⟨?_, ?_, ?_, ?_⟩
  · intro listing
    have hs := @List.sorted_mergeSort ProcessedProjectEntry
      (fun a b => decide (b.submittedAt ≤ a.submittedAt))
      (fun a b c hab hbc => by
        simp only [decide_eq_true_eq] at *
        exact le_trans hbc hab)
      (fun a b => by
        simp only [Bool.or_eq_true, decide_eq_true_eq]
        exact Nat.le_total b.submittedAt a.submittedAt)
      (listing.filterMap (fun fm => parseProjectFilename fm.1 fm.2))
    exact hs.imp (fun h => of_decide_eq_true h)
  · intro listing
    exact List.mergeSort_perm (listing.filterMap (fun fm => parseProjectFilename fm.1 fm.2)) _
  · intro filename mtime repo_type owner r rest hpre hsuf hsplit hrest
    cases rest with
    | nil => exact absurd rfl hrest
    | cons x xs => simp [parseProjectFilename, hpre, hsuf, hsplit]
  · intro filename mtime hlen
    cases hguard : (startsWithPy filename ("deepwiki_cache_") && endsWithPy filename (".json")) with
    | false => simp [parseProjectFilename, hguard]
    | true =>
      rcases hsp : splitOnPy (replaceAllPy (replaceAllPy filename ("deepwiki_cache_") ("")) (".json") ("")) ("_")
        with _ | ⟨a, _ | ⟨b, _ | ⟨c, _ | ⟨d, t⟩⟩⟩⟩
      · simp [parseProjectFilename, hguard, hsp]
      · simp [parseProjectFilename, hguard, hsp]
      · simp [parseProjectFilename, hguard, hsp]
      · simp [parseProjectFilename, hguard, hsp]
      · rw [hsp] at hlen
        simp at hlen
        omega

/-- Witness for C6 at the concrete filename from the source comment,
`deepwiki_cache_github_AsyncFuncAI_deepwiki-open_en.json`. -/
theorem C6_list_processed_projects_witness :
    parseProjectFilename ("deepwiki_cache_github_AsyncFuncAI_deepwiki-open_en.json") 7
      = some
        { id := "deepwiki_cache_github_AsyncFuncAI_deepwiki-open_en.json",
          owner := "AsyncFuncAI",
          repo := String.intercalate ("_") ((("deepwiki-open" : String) :: ["en"]).dropLast),
          name := "AsyncFuncAI" ++ "/"
            ++ String.intercalate ("_") ((("deepwiki-open" : String) :: ["en"]).dropLast),
          repo_type := "github", submittedAt := 7 * 1000,
          language := (("deepwiki-open" : String) :: ["en"]).getLast
            (List.cons_ne_nil "deepwiki-open" ["en"]) } :=
  C6_list_processed_projects.2.2.1
    ("deepwiki_cache_github_AsyncFuncAI_deepwiki-open_en.json") 7
    "github" "AsyncFuncAI" "deepwiki-open" ["en"] rfl rfl rfl (by simp)

/-- C2: stream decoding.  For every JSON parser standing for `json.loads`
and every line sequence: a line without the `data: ` prefix is ignored; a
`[DONE]` payload (after trimming) terminates the sequence with no further
frames read; a payload that fails to parse is dropped and the stream
continues; a payload that parses is emitted in order.  In particular the
four-line example sequence decodes to exactly its two well-formed chunks. -/
theorem C2_stream_decoding :
    (∀ (parse : String → Option Json) (line : String) (rest : List String),
      startsWithPy line ("data: ") = false →
      handleStreamResponse parse (line :: rest) = handleStreamResponse parse rest)
    ∧ (∀ (parse : String → Option Json) (line : String) (rest : List String),
      startsWithPy line ("data: ") = true →
      stripPy (line.drop 6) = "[DONE]" →
      handleStreamResponse parse (line :: rest) = [])
    ∧ (∀ (parse : String → Option Json) (line : String) (rest : List String),
      startsWithPy line ("data: ") = true →
      stripPy (line.drop 6) ≠ "[DONE]" →
      parse (line.drop 6) = none →
      handleStreamResponse parse (line :: rest) = handleStreamResponse parse rest)
    ∧ (∀ (parse : String → Option Json) (line : String) (rest : List String) (j : Json),
      startsWithPy line ("data: ") = true →
      stripPy (line.drop 6) ≠ "[DONE]" →
      parse (line.drop 6) = some j →
      handleStreamResponse parse (line :: rest) = j :: handleStreamResponse parse rest)
    ∧ (∀ (parse : String → Option Json) (j1 j2 : Json),
      parse ("\x7b\"a\":1\x7d") = some j1 →
      parse ("not-json") = none →
      parse ("\x7b\"b\":2\x7d") = some j2 →
      handleStreamResponse parse
        [("data: \x7b\"a\":1\x7d"), ("data: not-json"), ("data: \x7b\"b\":2\x7d"),
         ("data: [DONE]")] = [j1, j2]) := by
  refine ⟨?_, ?_, ?_, ?_, ?_⟩
  · intro parse line rest h
    simp [handleStreamResponse, h]
  · intro parse line rest h hdone
    simp [handleStreamResponse, h, hdone]
  · intro parse line rest h hdone hparse
    simp [handleStreamResponse, h, hdone, hparse]
  · intro parse line rest j h hdone hparse
    simp [handleStreamResponse, h, hdone, hparse]
  · intro parse j1 j2 h1 h2 h3
    have e1 : (("data: \x7b\"a\":1\x7d" : String).drop 6) = "\x7b\"a\":1\x7d" := rfl
    have e2 : (("data: not-json" : String).drop 6) = "not-json" := rfl
    have e3 : (("data: \x7b\"b\":2\x7d" : String).drop 6) = "\x7b\"b\":2\x7d" := rfl
    have s1 : startsWithPy ("data: \x7b\"a\":1\x7d") ("data: ") = true := rfl
    have s2 : startsWithPy ("data: not-json") ("data: ") = true := rfl
    have s3 : startsWithPy ("data: \x7b\"b\":2\x7d") ("data: ") = true := rfl
    have s4 : startsWithPy ("data: [DONE]") ("data: ") = true := rfl
    have n1 : ¬ (stripPy ("\x7b\"a\":1\x7d") = "[DONE]") := by decide
    have n2 : ¬ (stripPy ("not-json") = "[DONE]") := by decide
    have n3 : ¬ (stripPy ("\x7b\"b\":2\x7d") = "[DONE]") := by decide
    have e4 : stripPy (("data: [DONE]" : String).drop 6) = "[DONE]" := rfl
    simp [handleStreamResponse, s1, s2, s3, s4, e1, e2, e3, e4, n1, n2, n3, h1, h2, h3]

/-- Witness for C2: a concrete parser for the three concrete payloads
decodes the example sequence to its two chunks. -/
theorem C2_stream_decoding_witness :
    ((fun s => if s = "not-json" then none else some (Json.str s)) ("\x7b\"a\":1\x7d")
      = some (Json.str "\x7b\"a\":1\x7d")) ∧
    handleStreamResponse (fun s => if s = "not-json" then none else some (Json.str s))
      [("data: \x7b\"a\":1\x7d"), ("data: not-json"), ("data: \x7b\"b\":2\x7d"),
       ("data: [DONE]")]
      = [Json.str ("\x7b\"a\":1\x7d"), Json.str ("\x7b\"b\":2\x7d")] :=
  ⟨by simp,
   C2_stream_decoding.2.2.2.2 (fun s => if s = "not-json" then none else some (Json.str s))
     (Json.str ("\x7b\"a\":1\x7d")) (Json.str ("\x7b\"b\":2\x7d"))
     (by simp) (by simp) (by simp)⟩

/-- C3: adapter construction fails fast.  An unknown provider id is
rejected at construction; with no truthy explicit credential and no truthy
value in the provider's designated environment variable, construction
returns a `ValueError` immediately, for each of the three adapter families;
a non-empty explicit credential always wins: construction succeeds and the
stored key is the explicit one, whatever the environment holds. -/
theorem C3_adapter_fail_fast :
    (∀ (env : String → Option String) (provider : String) (api_key base_url : Option String),
      provider_configs.lookup (toLowerPy provider) = none →
      ChineseModelsClient.init env provider api_key base_url
        = .error (.valueError ("Unsupported model provider: " ++ provider)))
    ∧ (∀ (env : String → Option String) (provider : String)
        (api_key base_url : Option String) (config : ChineseProviderConfig),
      provider_configs.lookup (toLowerPy provider) = some config →
      pyTruthy api_key = false → pyTruthy (env config.env_key) = false →
      ∃ msg, ChineseModelsClient.init env provider api_key base_url
        = .error (.valueError msg))
    ∧ (∀ (env : String → Option String) (provider : String) (key : String)
        (base_url : Option String) (config : ChineseProviderConfig),
      provider_configs.lookup (toLowerPy provider) = some config →
      key ≠ "" →
      ∃ c, ChineseModelsClient.init env provider (some key) base_url = .ok c
        ∧ c.api_key = key)
    ∧ (∀ (env : String → Option String) (api_key : Option String) (base_url : String),
      pyTruthy api_key = false → pyTruthy (env ("DEEPSEEK_API_KEY")) = false →
      ∃ msg, DeepSeekClient.init env api_key base_url = .error (.valueError msg))
    ∧ (∀ (env : String → Option String) (key base_url : String),
      key ≠ "" →
      DeepSeekClient.init env (some key) base_url = .ok ⟨key, rstripSlash base_url⟩)
    ∧ (∀ (env : String → Option String) (api_key : Option String) (base_url : String),
      pyTruthy api_key = false → pyTruthy (env ("ZHIPUAI_API_KEY")) = false →
      ∃ msg, ZhipuAIClient.init env api_key base_url = .error (.valueError msg))
    ∧ (∀ (env : String → Option String) (key base_url : String),
      key ≠ "" →
      ZhipuAIClient.init env (some key) base_url = .ok ⟨key, rstripSlash base_url⟩) := by
  refine ⟨?_, ?_, ?_, ?_, ?_, ?_, ?_⟩
  · intro env provider api_key base_url h
    simp [ChineseModelsClient.init, h]
  · intro env provider api_key base_url config hcfg hk henv
    refine ⟨provider ++ " API key not set, set the " ++ config.env_key
      ++ " environment variable", ?_⟩
    simp [ChineseModelsClient.init, hcfg, pyOrOpt, hk, henv]
  · intro env provider key base_url config hcfg hne
    refine ⟨⟨toLowerPy provider, key,
      rstripSlash ((pyOrOpt base_url (some config.default_base_url)).getD ""),
      config.models⟩, ?_, rfl⟩
    simp [ChineseModelsClient.init, hcfg, pyOrOpt, pyTruthy, hne]
  · intro env api_key base_url hk henv
    refine ⟨"DeepSeek API key not set, set the DEEPSEEK_API_KEY environment variable", ?_⟩
    simp [DeepSeekClient.init, pyOrOpt, hk, henv]
  · intro env key base_url hne
    simp [DeepSeekClient.init, pyOrOpt, pyTruthy, hne]
  · intro env api_key base_url hk henv
    refine ⟨"ZhipuAI API key not set, set the ZHIPUAI_API_KEY environment variable", ?_⟩
    simp [ZhipuAIClient.init, pyOrOpt, hk, henv]
  · intro env key base_url hne
    simp [ZhipuAIClient.init, pyOrOpt, pyTruthy, hne]

/-- Witness for C3: with an empty environment and no explicit key,
constructing the DeepSeek adapter fails with a `ValueError`. -/
theorem C3_adapter_fail_fast_witness :
    (pyTruthy (none : Option String) = false) ∧
    ∃ msg, DeepSeekClient.init (fun _ => none) none "https://api.deepseek.com/v1"
      = .error (.valueError msg) :=
  ⟨rfl,
   C3_adapter_fail_fast.2.2.2.1 (fun _ => none) none "https://api.deepseek.com/v1" rfl rfl⟩

/-- Counterexample to C8 as stated: the DeepSeek adapter, given the
out-of-catalog model `"bogus-model"`, logs no warning (second component
`false`) yet still attempts the call with that model — so "the adapter logs
a warning" fails for this adapter. -/
theorem C8_model_policy_counterexample :
    (("bogus-model" : String) ∉ DEEPSEEK_MODELS) ∧
    DeepSeekClient.resolveModel (some "bogus-model") = ("bogus-model", false) :=
  ⟨by decide, rfl⟩

theorem lookup_self_getD :
    ∀ (l : List (String × String)), (∀ p ∈ l, p.2 = p.1) → ∀ m : String,
      ((l.lookup m).getD m) = m := by
  intro l
  induction l with
  | nil => intro _ m; rfl
  | cons p t ih =>
    intro hl m
    rcases p with ⟨k, v⟩
    have hkv : v = k := hl ⟨k, v⟩ (List.mem_cons_self _ _)
    by_cases h : m = k
    · subst h
      simp [List.lookup, hkv]
    · have hb : (m == k) = false := by simp [h]
      simp only [List.lookup, hb]
      exact ih (fun q hq => hl q (List.mem_cons_of_mem _ hq)) m

/-- C8 (amended): a falsy model argument falls back to the default — the
first entry of the provider's list for the Chinese-models multiplexer, the
fixed defaults `"deepseek-chat"` / `"glm-4.6"` (each the first entry of its
catalog) for the other two adapters.  An out-of-catalog model is never an
error: the multiplexer logs a warning and attempts the call with it; the
DeepSeek and ZhipuAI adapters attempt the call with it without logging any
warning. -/
theorem C8_model_policy :
    (∀ (c : ChineseModelsClient) (m0 : String) (ms : List String),
      c.available_models = m0 :: ms →
      (c.resolveModel none).1 = m0 ∧ (c.resolveModel (some "")).1 = m0)
    ∧ (∀ (c : ChineseModelsClient) (m : String), m ≠ "" →
      (c.resolveModel (some m)).1 = m
        ∧ ((c.resolveModel (some m)).2 = true ↔ m ∉ c.available_models))
    ∧ (∀ m : Option String, (DeepSeekClient.resolveModel m).2 = false)
    ∧ (∀ m : String, (DeepSeekClient.resolveModel (some m)).1 = m)
    ∧ (DeepSeekClient.resolveModel none).1 = "deepseek-chat"
    ∧ DEEPSEEK_MODELS.head? = some "deepseek-chat"
    ∧ (∀ m : Option String, (ZhipuAIClient.resolveModel m).2 = false)
    ∧ (∀ m : String, (ZhipuAIClient.resolveModel (some m)).1 = m)
    ∧ (ZhipuAIClient.resolveModel none).1 = "glm-4.6"
    ∧ ZHIPUAI_MODELS.head? = some "glm-4.6" := by
  refine ⟨?_, ?_, ?_, ?_, rfl, rfl, ?_, ?_, rfl, rfl⟩
  · intro c m0 ms h
    constructor
    · simp [ChineseModelsClient.resolveModel, pyTruthy, h]
    · simp [ChineseModelsClient.resolveModel, pyTruthy, h]
  · intro c m hne
    refine ⟨by simp [ChineseModelsClient.resolveModel, pyTruthy, hne], ?_⟩
    simp [ChineseModelsClient.resolveModel, pyTruthy, hne]
  · intro m
    rfl
  · intro m
    simpa [DeepSeekClient.resolveModel] using
      lookup_self_getD deepseek_model_mapping (by decide) m
  · intro m
    rfl
  · intro m
    simpa [ZhipuAIClient.resolveModel] using
      lookup_self_getD zhipuai_model_mapping (by decide) m

/-- Witness for C8 (amended): a concrete moonshot client defaults to the
first entry of its model list. -/
theorem C8_model_policy_witness :
    ((ChineseModelsClient.mk "moonshot" "key" "https://api.moonshot.cn/v1"
        ["moonshot-v1-8k", "moonshot-v1-32k", "moonshot-v1-128k"]).available_models
      = "moonshot-v1-8k" :: ["moonshot-v1-32k", "moonshot-v1-128k"]) ∧
    ((ChineseModelsClient.mk "moonshot" "key" "https://api.moonshot.cn/v1"
        ["moonshot-v1-8k", "moonshot-v1-32k", "moonshot-v1-128k"]).resolveModel none).1
      = "moonshot-v1-8k" :=
  ⟨rfl,
   (C8_model_policy.1 (ChineseModelsClient.mk "moonshot" "key" "https://api.moonshot.cn/v1"
      ["moonshot-v1-8k", "moonshot-v1-32k", "moonshot-v1-128k"])
      "moonshot-v1-8k" ["moonshot-v1-32k", "moonshot-v1-128k"] rfl).1⟩

theorem forceNat_eq {α : Type} (n : Nat) (k : Nat → α) : forceNat n k = k n := by
  cases n <;> rfl

theorem initGenrandAux_length : ∀ (fuel prev i : Nat),
    (initGenrandAux fuel prev i).length = fuel := by
  intro fuel
  induction fuel with
  | zero => intro prev i; rfl
  | succ n ih =>
    intro prev i
    simp [initGenrandAux, forceNat_eq, ih]

theorem mixScan_length (f : Nat → Nat → Nat → Nat) :
    ∀ (l : List Nat) (prev i : Nat), (mixScan f prev i l).length = l.length := by
  intro l
  induction l with
  | nil => intro prev i; rfl
  | cons x rest ih =>
    intro prev i
    simp [mixScan, forceNat_eq, ih]

theorem init_by_array_length (key : List Nat) : (init_by_array key).length = 624 := by
  simp [init_by_array, init_genrand, mixScan_length, initGenrandAux_length]

theorem twistLoop_length : ∀ (ps : List (Nat × Nat)) (o acc : List Nat) (k : Nat),
    (twistLoop ps o acc k).length = ps.length := by
  intro ps
  induction ps with
  | nil => intro o acc k; rfl
  | cons p rest ih =>
    intro o acc k
    rcases p with ⟨c, nx⟩
    simp [twistLoop, forceNat_eq, ih]

theorem twist_length (o : List Nat) (h : o.length = 624) : (twist o).length = 624 := by
  simp [twist, twistLoop_length, List.length_zip, h]

theorem pairUniform_length : ∀ l : List Nat, (pairUniform l).length = l.length / 2
  | [] => rfl
  | [_] => by simp [pairUniform]
  | g1 :: g2 :: rest => by
    simp [pairUniform, pairUniform_length rest]
    omega

theorem mockEmbedOne_length (text : String) : (mockEmbedOne text).length = 256 := by
  simp [mockEmbedOne, pairUniform_length, mtOutputs, List.length_take,
    twist_length _ (init_by_array_length _)]

theorem temper_lt (y : Nat) : temper y < 4294967296 := by
  simp only [temper]
  exact Nat.mod_lt _ (by norm_num)

theorem mem_mtOutputs_lt {x : Nat} {mt : List Nat} {c : Nat}
    (h : x ∈ mtOutputs mt c) : x < 4294967296 := by
  simp only [mtOutputs, List.mem_map] at h
  obtain ⟨y, _, rfl⟩ := h
  exact temper_lt y

theorem pairUniform_mem : ∀ (l : List Nat) (q : ℚ), q ∈ pairUniform l →
    ∃ g1 g2, g1 ∈ l ∧ g2 ∈ l ∧ q = uniformOfPair g1 g2
  | [], q, h => by simp [pairUniform] at h
  | [_], q, h => by simp [pairUniform] at h
  | g1 :: g2 :: rest, q, h => by
    simp only [pairUniform, List.mem_cons] at h
    rcases h with h | h
    · exact ⟨g1, g2, by simp, by simp, h⟩
    · obtain ⟨a, b, ha, hb, hq⟩ := pairUniform_mem rest q h
      exact ⟨a, b, by simp [ha], by simp [hb], hq⟩

theorem uniformOfPair_bounds (g1 g2 : Nat)
    (h1 : g1 < 4294967296) (h2 : g2 < 4294967296) :
    -1 ≤ uniformOfPair g1 g2 ∧ uniformOfPair g1 g2 ≤ 1 := by
  have ha : g1 >>> 5 ≤ 134217727 := by
    rw [Nat.shiftRight_eq_div_pow]
    omega
  have hb : g2 >>> 6 ≤ 67108863 := by
    rw [Nat.shiftRight_eq_div_pow]
    omega
  have hn : (g1 >>> 5) * 67108864 + (g2 >>> 6) ≤ 9007199254740991 := by
    calc (g1 >>> 5) * 67108864 + (g2 >>> 6)
        ≤ 134217727 * 67108864 + 67108863 := by
          exact Nat.add_le_add (Nat.mul_le_mul_right _ ha) hb
      _ = 9007199254740991 := by norm_num
  constructor
  · have hpos : (0:ℚ) ≤ (((g1 >>> 5) * 67108864 + (g2 >>> 6) : Nat) : ℚ) / 9007199254740992 := by
      positivity
    simp only [uniformOfPair]
    linarith
  · have hc : (((g1 >>> 5) * 67108864 + (g2 >>> 6) : Nat) : ℚ) ≤ 9007199254740991 := by
      exact_mod_cast hn
    have hdiv : (((g1 >>> 5) * 67108864 + (g2 >>> 6) : Nat) : ℚ) / 9007199254740992
        ≤ 9007199254740991 / 9007199254740992 :=
      (div_le_div_iff_of_pos_right (by norm_num : (0:ℚ) < 9007199254740992)).mpr hc
    simp only [uniformOfPair]
    linarith [hdiv]

theorem mtOutputs_take2 (mt : List Nat) :
    (mtOutputs mt 512).take 2 = mtOutputs mt 2 := by
  simp [mtOutputs, ← List.map_take, List.take_take]

theorem take2_shape {α : Type} (l : List α) (a b : α) (h : l.take 2 = [a, b]) :
    l = a :: b :: l.drop 2 := by
  cases l with
  | nil => simp at h
  | cons x t =>
    cases t with
    | nil => simp at h
    | cons y r =>
      simp at h
      simp [h.1, h.2]

theorem pairUniform_cons (g1 g2 : Nat) (rest : List Nat) :
    pairUniform (g1 :: g2 :: rest) = uniformOfPair g1 g2 :: pairUniform rest := rfl

theorem pairUniform_headD (l : List Nat) (g1 g2 : Nat) (h : l.take 2 = [g1, g2]) :
    (pairUniform l).headD 0 = uniformOfPair g1 g2 := by
  cases l with
  | nil => simp at h
  | cons a t =>
    cases t with
    | nil => simp at h
    | cons b r =>
      simp only [List.take_succ_cons, List.take_zero, List.cons.injEq, and_true] at h
      simp [pairUniform, h.1, h.2]

theorem uniformOfPair_inj {a b c d : Nat}
    (h : uniformOfPair a b = uniformOfPair c d) :
    (a >>> 5) * 67108864 + (b >>> 6) = (c >>> 5) * 67108864 + (d >>> 6) := by
  simp only [uniformOfPair] at h
  have h4 : (((a >>> 5) * 67108864 + (b >>> 6) : Nat) : ℚ) / 9007199254740992
      = (((c >>> 5) * 67108864 + (d >>> 6) : Nat) : ℚ) / 9007199254740992 := by
    linarith
  field_simp at h4
  exact_mod_cast h4

set_option maxRecDepth 100000 in
/-- C9: the mock embedder is a pure function of the MD5 content hash of the
input text, so repeated calls agree (in any process); every embedding has
exactly 256 components; every component lies in `[-1, 1]`; and the
embeddings of `"hello"` and `"world"` differ.  The generator pipeline
(MD5 seed, CPython string seeding via SHA-512, MT19937, `uniform(-1,1)`)
is modelled exactly, with `uniform` values as the exact rationals the IEEE
doubles denote. -/
theorem C9_mock_embedder :
    (∀ text : String, (mockEmbedOne text).length = 256)
    ∧ (∀ t1 t2 : String, md5hex t1 = md5hex t2 → mockEmbedOne t1 = mockEmbedOne t2)
    ∧ (∀ (text : String) (q : ℚ), q ∈ mockEmbedOne text → -1 ≤ q ∧ q ≤ 1)
    ∧ mockEmbedOne "hello" = mockEmbedOne "hello"
    ∧ mockEmbedOne "hello" ≠ mockEmbedOne "world" := by
  refine ⟨mockEmbedOne_length, ?_, ?_, rfl, ?_⟩
  · intro t1 t2 h
    simp [mockEmbedOne, h]
  · intro text q hq
    obtain ⟨g1, g2, hg1, hg2, hq⟩ := pairUniform_mem _ q hq
    exact hq ▸ uniformOfPair_bounds g1 g2 (mem_mtOutputs_lt hg1) (mem_mtOutputs_lt hg2)
  · have eh1 : md5hex "hello" = "5d41402abc4b2a76b9719d911017c592" := by decide
    have eh2 : seedKey (pySeedInt "5d41402abc4b2a76b9719d911017c592") = keyHello := by decide
    have eh3 : mtOutputs (init_by_array keyHello) 2 = [4037036077, 2305248396] := by decide
    have ew1 : md5hex "world" = "7d793037a0760186574b0282f2f435e7" := by decide
    have ew2 : seedKey (pySeedInt "7d793037a0760186574b0282f2f435e7") = keyWorld := by decide
    have ew3 : mtOutputs (init_by_array keyWorld) 2 = [1247748714, 1252051846] := by decide
    have hh : (mockEmbedOne "hello").headD 0 = uniformOfPair 4037036077 2305248396 := by
      have ht : (mtOutputs (init_by_array (seedKey (pySeedInt (md5hex "hello")))) 512).take 2
          = [4037036077, 2305248396] := by
        rw [eh1, eh2, mtOutputs_take2]
        exact eh3
      exact pairUniform_headD _ _ _ ht
    have hw : (mockEmbedOne "world").headD 0 = uniformOfPair 1247748714 1252051846 := by
      have ht : (mtOutputs (init_by_array (seedKey (pySeedInt (md5hex "world")))) 512).take 2
          = [1247748714, 1252051846] := by
        rw [ew1, ew2, mtOutputs_take2]
        exact ew3
      exact pairUniform_headD _ _ _ ht
    intro heq
    have hhead := congrArg (fun l : List ℚ => l.headD 0) heq
    simp only [] at hhead
    rw [hh, hw] at hhead
    have hne := uniformOfPair_inj hhead
    revert hne
    decide

/-- Witness for C9: the embedding of `"hello"` equals itself (two calls
agree), through the hash-determinism clause at a concrete input. -/
theorem C9_mock_embedder_witness :
    md5hex "hello" = md5hex "hello" ∧ mockEmbedOne "hello" = mockEmbedOne "hello" :=
  ⟨rfl, C9_mock_embedder.2.1 "hello" "hello" rfl⟩
